import Mathlib

/-!
Verification of the DataStore controller (`src/controllers/datastore_controller.go`).

The controller's `Reconcile` method is embedded as a pure function over an
abstract cluster state.  The cluster state records the outcome of each external
call the method performs: `client.Get` on the requested DataStore identity,
`GetContent` on each of the three TLS material references, `client.List` of
TenantControlPlane objects, and `client.Status().Update`.  The function
returns the controller result together with ghost instrumentation (which
materials were resolved, whether the list and status-update calls happened,
and the ordered sequence of events sent on the trigger channel) and the
cluster state after the call (the only mutation is the persisted
`status.usedBy` on a successful status update).
-/

/-- A TenantControlPlane object, reduced to its identity (namespace, name). -/
structure TenantControlPlane where
  ns : String
  name : String
deriving Repr, DecidableEq

/-- Modelled from the spec: `getNamespacedName` (a helper defined outside the
provided sources) combines a namespace and a name into the "namespace/name"
identity string used for `status.usedBy` entries. -/
def getNamespacedName (ns name : String) : String :=
  ns ++ "/" ++ name

deriving instance DecidableEq for Except

/-- The resolution outcome of one content reference (`GetContent` in Go):
either the resolved bytes or an error message. -/
abbrev ContentResult := Except String String

/-- `ds.Spec.TLSConfig.CertificateAuthority` — only the `Certificate` reference
is consulted by the controller. -/
structure CertificateAuthority where
  certificate : ContentResult
deriving Repr, DecidableEq

/-- `ds.Spec.TLSConfig.ClientCertificate` — certificate and private key
references. -/
structure ClientCertificate where
  certificate : ContentResult
  privateKey : ContentResult
deriving Repr, DecidableEq

/-- `ds.Spec.TLSConfig`. -/
structure TLSConfig where
  certificateAuthority : CertificateAuthority
  clientCertificate : ClientCertificate
deriving Repr, DecidableEq

/-- `ds.Spec`. -/
structure DataStoreSpec where
  tlsConfig : TLSConfig
deriving Repr, DecidableEq

/-- `ds.Status` — the reverse index of dependents. -/
structure DataStoreStatus where
  usedBy : List String
deriving Repr, DecidableEq

/-- The DataStore API object. -/
structure DataStore where
  name : String
  spec : DataStoreSpec
  status : DataStoreStatus
deriving Repr, DecidableEq

/-- Outcome of `client.Get` when it fails: not-found or any other error. -/
inductive GetError where
  | notFound
  | other (msg : String)
deriving Repr, DecidableEq

/-- Abstract cluster state observed by one `Reconcile` call. -/
structure Cluster where
  dataStore : Except GetError DataStore
  tenantControlPlaneList : Except String (List TenantControlPlane)
  statusUpdate : Option String
deriving Repr, DecidableEq

/-- `reconcile.Result` — the controller always returns the zero value. -/
structure CtrlResult where
  requeue : Bool
  requeueAfterNanos : Nat
deriving Repr, DecidableEq

/-- `reconcile.Result\x7b\x7d`, the zero value: no requeue. -/
def emptyResult : CtrlResult := ⟨false, 0⟩

/-- The three TLS materials the validator resolves, in declaration order. -/
inductive Material where
  | certificateAuthority
  | clientCertificate
  | clientPrivateKey
deriving Repr, DecidableEq

/-- All three materials in the order the controller resolves them. -/
def allMaterials : List Material :=
  [.certificateAuthority, .clientCertificate, .clientPrivateKey]

/-- The error returned by `Reconcile`.  `wrap inner msg` models
`errors.Wrap(err, msg)` of the Go code: the wrapping message is the tag, the
inner string is the underlying resolution error. -/
inductive ReconcileError where
  | getError (msg : String)
  | wrap (inner : String) (msg : String)
  | listError (msg : String)
  | statusUpdateError (msg : String)
deriving Repr, DecidableEq

/-- Result of one `Reconcile` call: controller result, returned error, ghost
trace of resolved materials, whether `client.List` and a successful
`client.Status().Update` happened, and the ordered events sent on the
TenantControlPlaneTrigger channel (one `GenericEvent` per object sent). -/
structure ReconcileOutput where
  result : CtrlResult
  error : Option ReconcileError
  resolved : List Material
  listCalled : Bool
  statusWritten : Bool
  events : List TenantControlPlane
deriving Repr, DecidableEq

/-- The lexicographic order on strings, decided through the underlying
character list (kernel-reducible, unlike the iterator-based comparison). -/
instance (priority := 2000) strLeDec : DecidableRel (fun a b : String => a ≤ b) :=
  fun a b => decidable_of_iff (a.toList ≤ b.toList) String.le_iff_toList_le.symm

/-- One step of `sets.String.Insert` followed at the end by `List()`:
the accumulator is kept as a sorted, duplicate-free list, so inserting an
element already present is a no-op and a new element goes to its sorted
position.  `sets.NewString()` starts from `[]`. -/
def setInsert (s : List String) (x : String) : List String :=
  if x ∈ s then s else s.orderedInsert (· ≤ ·) x

/-- `sets.NewString()` + `Insert` over a list + `List()`: the sorted,
deduplicated list of all inserted strings. -/
def stringSetList (l : List String) : List String :=
  l.foldl setInsert []

/-- `getNamespacedName(tcp.GetNamespace(), tcp.GetName()).String()`: the
identity string of a TenantControlPlane. -/
def tcpIdentity (tcp : TenantControlPlane) : String :=
  getNamespacedName tcp.ns tcp.name

/-- `DataStore.Reconcile`, embedded over the abstract cluster state.
Mirrors the Go control flow: get (not-found is a benign no-op), resolve the
three materials in order with early return, list TenantControlPlanes, compute
the sorted deduplicated usedBy set, update the status, then send one event
per raw list item on the channel. -/
def reconcile (c : Cluster) : ReconcileOutput × Cluster :=
  match c.dataStore with
  | .error .notFound =>
      (⟨emptyResult, none, [], false, false, []⟩, c)
  | .error (.other msg) =>
      (⟨emptyResult, some (.getError msg), [], false, false, []⟩, c)
  | .ok ds =>
    match ds.spec.tlsConfig.certificateAuthority.certificate with
    | .error e =>
        (⟨emptyResult, some (.wrap e "invalid Certificate Authority data"),
          [.certificateAuthority], false, false, []⟩, c)
    | .ok _ =>
      match ds.spec.tlsConfig.clientCertificate.certificate with
      | .error e =>
          (⟨emptyResult, some (.wrap e "invalid Client Certificate data"),
            [.certificateAuthority, .clientCertificate], false, false, []⟩, c)
      | .ok _ =>
        match ds.spec.tlsConfig.clientCertificate.privateKey with
        | .error e =>
            (⟨emptyResult, some (.wrap e "invalid Client Certificate data"),
              allMaterials, false, false, []⟩, c)
        | .ok _ =>
          match c.tenantControlPlaneList with
          | .error e =>
              (⟨emptyResult, some (.listError e), allMaterials, true, false, []⟩, c)
          | .ok items =>
            let usedBy := stringSetList (items.map tcpIdentity)
            match c.statusUpdate with
            | some e =>
                (⟨emptyResult, some (.statusUpdateError e), allMaterials, true,
                  false, []⟩, c)
            | none =>
                (⟨emptyResult, none, allMaterials, true, true, items⟩,
                 { c with dataStore := .ok { ds with status := ⟨usedBy⟩ } })

/-- The persisted `status.usedBy` of the watched DataStore, when it exists. -/
def Cluster.usedBy? (c : Cluster) : Option (List String) :=
  match c.dataStore with
  | .ok ds => some ds.status.usedBy
  | .error _ => none

/-- The watch predicate installed by `SetupWithManager`: admit an object's
change notification exactly when its name equals the configured
`ResourceName`. -/
def dataStorePredicate (resourceName : String) (objectName : String) : Bool :=
  objectName == resourceName

/-! ### Concrete cluster states used in witnesses and counterexamples -/

/-- A raw TenantControlPlane list with a duplicate identity, out of
lexicographic order: the §8 example dependents. -/
def itemsDup : List TenantControlPlane :=
  [⟨"ns2", "b"⟩, ⟨"ns1", "a"⟩, ⟨"ns1", "a"⟩]

/-- A DataStore whose three materials all resolve. -/
def dsOk : DataStore :=
  { name := "store-a",
    spec := ⟨⟨⟨.ok "ca-bytes"⟩, ⟨.ok "cert-bytes", .ok "key-bytes"⟩⟩⟩,
    status := ⟨[]⟩ }

/-- Cluster: healthy descriptor, duplicate-bearing dependent list. -/
def cDup : Cluster := ⟨.ok dsOk, .ok itemsDup, none⟩

/-- A DataStore whose CA certificate reference does not resolve. -/
def dsCAFail : DataStore :=
  { name := "store-a",
    spec := ⟨⟨⟨.error "reference not resolvable"⟩,
             ⟨.ok "cert-bytes", .ok "key-bytes"⟩⟩⟩,
    status := ⟨["prior/entry"]⟩ }

/-- Cluster: CA material broken, everything else healthy. -/
def cCAFail : Cluster := ⟨.ok dsCAFail, .ok itemsDup, none⟩

/-- A DataStore whose client certificate reference does not resolve. -/
def dsCertFail : DataStore :=
  { name := "store-a",
    spec := ⟨⟨⟨.ok "ca-bytes"⟩,
             ⟨.error "reference not resolvable", .ok "key-bytes"⟩⟩⟩,
    status := ⟨[]⟩ }

/-- Cluster: client certificate material broken. -/
def cCertFail : Cluster := ⟨.ok dsCertFail, .ok [], none⟩

/-- A DataStore whose client private key reference does not resolve. -/
def dsKeyFail : DataStore :=
  { name := "store-a",
    spec := ⟨⟨⟨.ok "ca-bytes"⟩,
             ⟨.ok "cert-bytes", .error "reference not resolvable"⟩⟩⟩,
    status := ⟨[]⟩ }

/-- Cluster: client private key material broken. -/
def cKeyFail : Cluster := ⟨.ok dsKeyFail, .ok [], none⟩

/-- Cluster: the watched DataStore does not exist. -/
def cNotFound : Cluster := ⟨.error .notFound, .ok itemsDup, none⟩

/-! ### Properties of the string-set construction -/

/-- Inserting into a sorted accumulator keeps it sorted. -/
theorem setInsert_sorted {s : List String} (hs : s.Sorted (· ≤ ·)) (x : String) :
    (setInsert s x).Sorted (· ≤ ·) := by
  unfold setInsert
  split
  · exact hs
  · exact hs.orderedInsert x s

/-- Membership after one insertion. -/
theorem mem_setInsert {s : List String} {x y : String} :
    y ∈ setInsert s x ↔ y = x ∨ y ∈ s := by
  unfold setInsert
  split
  · rename_i h
    exact ⟨Or.inr, fun hy => hy.elim (fun e => e ▸ h) id⟩
  · exact List.mem_orderedInsert (· ≤ ·)

/-- Inserting into a duplicate-free accumulator keeps it duplicate-free. -/
theorem setInsert_nodup {s : List String} (hs : s.Nodup) (x : String) :
    (setInsert s x).Nodup := by
  unfold setInsert
  split
  · exact hs
  · rename_i h
    exact ((List.perm_orderedInsert _ x s).nodup_iff).mpr (List.nodup_cons.mpr ⟨h, hs⟩)

/-- Folding insertions over a sorted accumulator yields a sorted list. -/
theorem foldl_setInsert_sorted (l : List String) (s : List String)
    (hs : s.Sorted (· ≤ ·)) : (l.foldl setInsert s).Sorted (· ≤ ·) := by
  induction l generalizing s with
  | nil => exact hs
  | cons x xs ih => exact ih _ (setInsert_sorted hs x)

/-- Folding insertions over a duplicate-free accumulator yields a
duplicate-free list. -/
theorem foldl_setInsert_nodup (l : List String) (s : List String) (hs : s.Nodup) :
    (l.foldl setInsert s).Nodup := by
  induction l generalizing s with
  | nil => exact hs
  | cons x xs ih => exact ih _ (setInsert_nodup hs x)

/-- Membership after folding insertions. -/
theorem mem_foldl_setInsert (l : List String) (s : List String) (y : String) :
    y ∈ l.foldl setInsert s ↔ y ∈ s ∨ y ∈ l := by
  induction l generalizing s with
  | nil => simp
  | cons x xs ih =>
    rw [List.foldl_cons, ih, mem_setInsert]
    constructor
    · rintro ((rfl | hy) | hy)
      · exact Or.inr (List.mem_cons_self y xs)
      · exact Or.inl hy
      · exact Or.inr (List.mem_cons_of_mem x hy)
    · rintro (hy | hy)
      · exact Or.inl (Or.inr hy)
      · rcases List.mem_cons.mp hy with rfl | hy
        · exact Or.inl (Or.inl rfl)
        · exact Or.inr hy

/-- The set listing is sorted (lexicographically, by the string order). -/
theorem stringSetList_sorted (l : List String) :
    (stringSetList l).Sorted (· ≤ ·) :=
  foldl_setInsert_sorted l [] List.sorted_nil

/-- The set listing is duplicate-free. -/
theorem stringSetList_nodup (l : List String) : (stringSetList l).Nodup :=
  foldl_setInsert_nodup l [] List.nodup_nil

/-- The set listing has exactly the members of its input. -/
theorem mem_stringSetList {l : List String} {y : String} :
    y ∈ stringSetList l ↔ y ∈ l := by
  rw [stringSetList, mem_foldl_setInsert]
  simp

/-- The set listing is a permutation of the input's deduplication: it is the
deduplicated input, reordered (sortedly). -/
theorem stringSetList_perm_dedup (l : List String) :
    List.Perm (stringSetList l) l.dedup := by
  refine (List.perm_ext_iff_of_nodup (stringSetList_nodup l) l.nodup_dedup).mpr ?_
  intro a
  rw [mem_stringSetList, List.mem_dedup]

/-! ### Claims -/

/-- C1: for every descriptor whose CA certificate, client certificate and
client private key all resolve, and whose list and status-write operations
succeed, `Reconcile` returns success and afterwards `status.usedBy` equals the
deduplicated, lexicographically ordered set of "namespace/name" identities of
all dependent workloads present at call time. -/
theorem reconcile_success_usedBy_spec (c : Cluster) (ds : DataStore)
    (ca cc ck : String) (items : List TenantControlPlane)
    (hget : c.dataStore = .ok ds)
    (hca : ds.spec.tlsConfig.certificateAuthority.certificate = .ok ca)
    (hcc : ds.spec.tlsConfig.clientCertificate.certificate = .ok cc)
    (hck : ds.spec.tlsConfig.clientCertificate.privateKey = .ok ck)
    (hlist : c.tenantControlPlaneList = .ok items)
    (hupd : c.statusUpdate = none) :
    (reconcile c).1.error = none ∧
    (reconcile c).2.usedBy? = some (stringSetList (items.map tcpIdentity)) ∧
    (stringSetList (items.map tcpIdentity)).Sorted (· ≤ ·) ∧
    (stringSetList (items.map tcpIdentity)).Nodup ∧
    List.Perm (stringSetList (items.map tcpIdentity))
      (items.map tcpIdentity).dedup := by
  refine ⟨?_, ?_, stringSetList_sorted _, stringSetList_nodup _,
    stringSetList_perm_dedup _⟩ <;>
    simp [reconcile, Cluster.usedBy?, hget, hca, hcc, hck, hlist, hupd]

/-- Witness for C1 at a concrete cluster whose dependent list holds a
duplicate identity and is out of lexicographic order. -/
theorem reconcile_success_usedBy_spec_witness :
    (reconcile cDup).1.error = none ∧
    (reconcile cDup).2.usedBy? = some (stringSetList (itemsDup.map tcpIdentity)) ∧
    (stringSetList (itemsDup.map tcpIdentity)).Sorted (· ≤ ·) ∧
    (stringSetList (itemsDup.map tcpIdentity)).Nodup ∧
    List.Perm (stringSetList (itemsDup.map tcpIdentity))
      (itemsDup.map tcpIdentity).dedup :=
  reconcile_success_usedBy_spec cDup dsOk "ca-bytes" "cert-bytes" "key-bytes"
    itemsDup rfl rfl rfl rfl rfl rfl

/-- C2 counterexample: with raw dependents ["ns2/b", "ns1/a", "ns1/a"], the
cycle succeeds, the persisted index is the deduplicated sorted ["ns1/a",
"ns2/b"], yet three events are emitted following the raw list's order — not
one per deduplicated identity and not in the indexer's order. -/
theorem notification_matches_index_cex :
    (reconcile cDup).1.error = none ∧
    (reconcile cDup).2.usedBy? = some ["ns1/a", "ns2/b"] ∧
    (reconcile cDup).1.events.map tcpIdentity = ["ns2/b", "ns1/a", "ns1/a"] ∧
    (reconcile cDup).1.events.length ≠
      (stringSetList (itemsDup.map tcpIdentity)).length ∧
    (reconcile cDup).1.events.map tcpIdentity ≠
      stringSetList (itemsDup.map tcpIdentity) := by
  decide

/-- C2 amended: in every successful cycle one notification event is emitted
per entry of the raw dependent list (duplicates included), in the raw list's
order; the emission does not follow the deduplicated index. -/
theorem notification_per_raw_entry (c : Cluster) (ds : DataStore)
    (ca cc ck : String) (items : List TenantControlPlane)
    (hget : c.dataStore = .ok ds)
    (hca : ds.spec.tlsConfig.certificateAuthority.certificate = .ok ca)
    (hcc : ds.spec.tlsConfig.clientCertificate.certificate = .ok cc)
    (hck : ds.spec.tlsConfig.clientCertificate.privateKey = .ok ck)
    (hlist : c.tenantControlPlaneList = .ok items)
    (hupd : c.statusUpdate = none) :
    (reconcile c).1.error = none ∧
    (reconcile c).1.events.length = items.length ∧
    (reconcile c).1.events.map tcpIdentity = items.map tcpIdentity := by
  simp [reconcile, hget, hca, hcc, hck, hlist, hupd]

/-- Witness for the amended C2 at the duplicate-bearing cluster. -/
theorem notification_per_raw_entry_witness :
    (reconcile cDup).1.error = none ∧
    (reconcile cDup).1.events.length = itemsDup.length ∧
    (reconcile cDup).1.events.map tcpIdentity = itemsDup.map tcpIdentity :=
  notification_per_raw_entry cDup dsOk "ca-bytes" "cert-bytes" "key-bytes"
    itemsDup rfl rfl rfl rfl rfl rfl

/-- C3: when only the client private key fails to resolve, the returned error
is wrapped with the message "invalid Client Certificate data" — the same tag
produced when the client certificate fails — so the error does not identify
the client private key as the failing material.  (The two runs do differ:
the key-failure run resolved all three materials, the certificate-failure run
stopped after two.) -/
theorem clientKey_failure_mistagged :
    (reconcile cKeyFail).1.error =
      some (.wrap "reference not resolvable" "invalid Client Certificate data") ∧
    (reconcile cKeyFail).1.error = (reconcile cCertFail).1.error ∧
    (reconcile cKeyFail).1.resolved = allMaterials ∧
    (reconcile cCertFail).1.resolved =
      [Material.certificateAuthority, Material.clientCertificate] := by
  decide

/-- C4: every failing cycle aborts without emitting any notification event
and without persisting anything: the cluster state after the call, and in
particular the persisted `status.usedBy`, is exactly the prior one. -/
theorem reconcile_failure_aborts (c : Cluster) (e : ReconcileError)
    (h : (reconcile c).1.error = some e) :
    (reconcile c).1.events = [] ∧ (reconcile c).1.statusWritten = false ∧
    (reconcile c).2 = c := by
  obtain ⟨dsr, lst, upd⟩ := c
  rcases dsr with ge | ds
  · rcases ge with _ | msg <;> simp_all [reconcile]
  · obtain ⟨nm, ⟨⟨⟨car⟩, ⟨ccr, ckr⟩⟩⟩, ⟨ub⟩⟩ := ds
    rcases car with e1 | v1 <;> rcases ccr with e2 | v2 <;> rcases ckr with e3 | v3 <;>
      rcases lst with le | items <;> rcases upd with _ | ue <;> simp_all [reconcile]

/-- Witness for C4 at a cluster whose CA material does not resolve: the prior
`status.usedBy` survives untouched and no event is sent. -/
theorem reconcile_failure_aborts_witness :
    (reconcile cCAFail).1.events = [] ∧
    (reconcile cCAFail).1.statusWritten = false ∧
    (reconcile cCAFail).2 = cCAFail :=
  reconcile_failure_aborts cCAFail
    (.wrap "reference not resolvable" "invalid Certificate Authority data") rfl

/-- C5: the validator resolves CA certificate, then client certificate, then
client private key, exactly in that order and fail-fast: the trace of
resolution calls is the canonical order truncated right after the first
failing material. -/
theorem validator_order_failfast (c : Cluster) (ds : DataStore)
    (hget : c.dataStore = .ok ds) :
    (reconcile c).1.resolved =
      if ds.spec.tlsConfig.certificateAuthority.certificate.isOk = false then
        [Material.certificateAuthority]
      else if ds.spec.tlsConfig.clientCertificate.certificate.isOk = false then
        [Material.certificateAuthority, Material.clientCertificate]
      else allMaterials := by
  obtain ⟨dsr, lst, upd⟩ := c
  simp only at hget
  subst hget
  obtain ⟨nm, ⟨⟨⟨car⟩, ⟨ccr, ckr⟩⟩⟩, ⟨ub⟩⟩ := ds
  rcases car with e1 | v1 <;> rcases ccr with e2 | v2 <;> rcases ckr with e3 | v3 <;>
    rcases lst with le | items <;> rcases upd with _ | ue <;>
      simp [reconcile, Except.isOk, Except.toBool, allMaterials]

/-- Witness for C5 at the cluster whose client private key fails: all three
materials were resolved, in order, before the failure was reported. -/
theorem validator_order_failfast_witness :
    (reconcile cKeyFail).1.resolved =
      if dsKeyFail.spec.tlsConfig.certificateAuthority.certificate.isOk = false then
        [Material.certificateAuthority]
      else if dsKeyFail.spec.tlsConfig.clientCertificate.certificate.isOk = false then
        [Material.certificateAuthority, Material.clientCertificate]
      else allMaterials :=
  validator_order_failfast cKeyFail dsKeyFail rfl

/-- C6: when the watched DataStore no longer exists, `Reconcile` returns
success with the zero result (no requeue) and performs nothing: no material
resolution, no list, no status write, no event, no state change. -/
theorem reconcile_notFound_noop (c : Cluster)
    (h : c.dataStore = .error .notFound) :
    (reconcile c).1.error = none ∧ (reconcile c).1.result = emptyResult ∧
    (reconcile c).1.resolved = [] ∧ (reconcile c).1.listCalled = false ∧
    (reconcile c).1.statusWritten = false ∧ (reconcile c).1.events = [] ∧
    (reconcile c).2 = c := by
  simp [reconcile, h]

/-- Witness for C6 at a cluster without the watched DataStore. -/
theorem reconcile_notFound_noop_witness :
    (reconcile cNotFound).1.error = none ∧
    (reconcile cNotFound).1.result = emptyResult ∧
    (reconcile cNotFound).1.resolved = [] ∧
    (reconcile cNotFound).1.listCalled = false ∧
    (reconcile cNotFound).1.statusWritten = false ∧
    (reconcile cNotFound).1.events = [] ∧
    (reconcile cNotFound).2 = cNotFound :=
  reconcile_notFound_noop cNotFound rfl

/-- C7: `Reconcile` is idempotent — calling it again on the state it produced
(the only thing it may change is the persisted `status.usedBy`) yields the
same error outcome, the same ordered event sequence, and the same persisted
`status.usedBy`. -/
theorem reconcile_idempotent (c : Cluster) :
    (reconcile (reconcile c).2).1.events = (reconcile c).1.events ∧
    (reconcile (reconcile c).2).2.usedBy? = (reconcile c).2.usedBy? ∧
    (reconcile (reconcile c).2).1.error = (reconcile c).1.error := by
  obtain ⟨dsr, lst, upd⟩ := c
  rcases dsr with ge | ds
  · rcases ge with _ | msg <;> simp [reconcile, Cluster.usedBy?]
  · obtain ⟨nm, ⟨⟨⟨car⟩, ⟨ccr, ckr⟩⟩⟩, ⟨ub⟩⟩ := ds
    rcases car with e1 | v1 <;> rcases ccr with e2 | v2 <;> rcases ckr with e3 | v3 <;>
      rcases lst with le | items <;> rcases upd with _ | ue <;>
        simp [reconcile, Cluster.usedBy?]

/-- C8: the watch filter predicate admits an object's change notification if
and only if the object's name equals the configured target resource name; any
object with a different name is rejected by the predicate before reaching the
reconciliation logic. -/
theorem dataStorePredicate_spec (resourceName objectName : String) :
    dataStorePredicate resourceName objectName = true ↔
      objectName = resourceName := by
  simp [dataStorePredicate]

/-- C9: if any notification event was emitted, the status write had already
completed successfully, and the persisted `status.usedBy` equals the newly
computed deduplicated, lexicographically sorted index of the listed
dependents. -/
theorem events_only_after_status_write (c : Cluster)
    (h : (reconcile c).1.events ≠ []) :
    (reconcile c).1.statusWritten = true ∧ c.statusUpdate = none ∧
    ∃ items, c.tenantControlPlaneList = .ok items ∧
      (reconcile c).2.usedBy? = some (stringSetList (items.map tcpIdentity)) ∧
      (stringSetList (items.map tcpIdentity)).Sorted (· ≤ ·) ∧
      List.Perm (stringSetList (items.map tcpIdentity))
        (items.map tcpIdentity).dedup := by
  obtain ⟨dsr, lst, upd⟩ := c
  rcases dsr with ge | ds
  · rcases ge with _ | msg <;> simp_all [reconcile]
  · obtain ⟨nm, ⟨⟨⟨car⟩, ⟨ccr, ckr⟩⟩⟩, ⟨ub⟩⟩ := ds
    rcases car with e1 | v1 <;> rcases ccr with e2 | v2 <;> rcases ckr with e3 | v3 <;>
      rcases lst with le | items <;> rcases upd with _ | ue <;>
        simp_all [reconcile, Cluster.usedBy?]
    refine ⟨?_, stringSetList_perm_dedup _⟩
    simpa using stringSetList_sorted (items.map tcpIdentity)

/-- Witness for C9 at the duplicate-bearing cluster, whose cycle emits
events. -/
theorem events_only_after_status_write_witness :
    (reconcile cDup).1.statusWritten = true ∧ cDup.statusUpdate = none ∧
    ∃ items, cDup.tenantControlPlaneList = .ok items ∧
      (reconcile cDup).2.usedBy? = some (stringSetList (items.map tcpIdentity)) ∧
      (stringSetList (items.map tcpIdentity)).Sorted (· ≤ ·) ∧
      List.Perm (stringSetList (items.map tcpIdentity))
        (items.map tcpIdentity).dedup :=
  events_only_after_status_write cDup (by decide)

/-- C10: in every successful cycle on an existing descriptor, the emitted
event sequence is exactly the raw dependent list returned by the list
operation — same elements, same order, duplicates preserved, no
deduplication or reordering. -/
theorem events_match_raw_list (c : Cluster) (ds : DataStore)
    (hget : c.dataStore = .ok ds)
    (hok : (reconcile c).1.error = none) :
    ∃ items, c.tenantControlPlaneList = .ok items ∧
      (reconcile c).1.events = items := by
  obtain ⟨dsr, lst, upd⟩ := c
  simp only at hget
  subst hget
  obtain ⟨nm, ⟨⟨⟨car⟩, ⟨ccr, ckr⟩⟩⟩, ⟨ub⟩⟩ := ds
  rcases car with e1 | v1 <;> rcases ccr with e2 | v2 <;> rcases ckr with e3 | v3 <;>
    rcases lst with le | items <;> rcases upd with _ | ue <;>
      simp_all [reconcile]

/-- Witness for C10 at the duplicate-bearing cluster: the three events are
the raw list, duplicate included. -/
theorem events_match_raw_list_witness :
    ∃ items, cDup.tenantControlPlaneList = .ok items ∧
      (reconcile cDup).1.events = items :=
  events_match_raw_list cDup dsOk rfl rfl
